import Mathlib

/-!
Verification of the question-routing and response-contract layer of the
Multi-Agent-Assistant-for-Smarter-Analytics repository.

The frontend code (src/frontend-repo/src) is embedded directly.  The backend
agents exist in this repository only through their documentation
(TEXT_TO_SQL_AGENT_DOCUMENTATION.md, FRONTEND_BACKEND_SYNC.md); the python
listings reproduced there are embedded verbatim, and the orchestrator that the
spec describes is modelled from the spec where no listing exists.
-/

/-! ## Character and string utilities (python `str.upper`, `str.strip`, `in`) -/

/-- Uppercase every character, as python `str.upper()` does on ASCII text. -/
def upperChars (l : List Char) : List Char := l.map Char.toUpper

/-- The whitespace characters stripped by python `str.strip()`. -/
def isSpaceChar (c : Char) : Bool := c == ' ' || c == '\t' || c == '\n' || c == '\r'

/-- python `str.strip()`: drop whitespace from both ends. -/
def stripChars (l : List Char) : List Char :=
  ((l.dropWhile isSpaceChar).reverse.dropWhile isSpaceChar).reverse

/-- `isPrefixList pat l` is true iff `pat` is a prefix of `l`
(python `str.startswith`). -/
def isPrefixList : List Char → List Char → Bool
  | [], _ => true
  | _ :: _, [] => false
  | p :: ps, c :: cs => p == c && isPrefixList ps cs

/-- `containsSub pat l` is true iff `pat` occurs as a contiguous substring of
`l` (python `pat in l`, javascript `l.includes(pat)`). -/
def containsSub (pat : List Char) : List Char → Bool
  | [] => pat.isEmpty
  | c :: rest => isPrefixList pat (c :: rest) || containsSub pat rest

/-- Substring test on strings. -/
def strContains (hay pat : String) : Bool := containsSub pat.toList hay.toList

/-! ## `_validate_sql` (v3.0), embedded from the listing in
src/TEXT_TO_SQL_AGENT_DOCUMENTATION.md.  The python raises `ValueError` on a
bad query and returns `True` otherwise; we embed acceptance as a Bool: the
query is accepted iff the uppercased text, stripped, starts with `SELECT` and
no deny-listed operation occurs anywhere in the uppercased text. -/

def dangerousOps : List String :=
  ["INSERT", "UPDATE", "DELETE", "DROP", "ALTER", "TRUNCATE", "CREATE", "EXEC"]

def validateSqlChars (l : List Char) : Bool :=
  isPrefixList "SELECT".toList (stripChars (upperChars l)) &&
    !(dangerousOps.any (fun op => containsSub op.toList (upperChars l)))

def validate_sql (sql : String) : Bool := validateSqlChars sql.toList

/-- The rejection predicate as the claim states it: some deny-listed keyword
occurs anywhere in the statement, case-insensitively. -/
def denyKeywordOccurs (q : String) : Bool :=
  dangerousOps.any (fun op => containsSub op.toList (upperChars q.toList))

/-! ## `analyze_question`, embedded from the routing pseudocode in
src/FRONTEND_BACKEND_SYNC.md (the backend planner source is not in the
repository snapshot; this is its documented logic). -/

inductive QuestionType
  | WHAT
  | WHY
deriving DecidableEq

def whatKeywords : List String := ["what", "how many", "show me", "list"]

def whyKeywords : List String := ["why", "cause", "reason", "explain"]

def analyze_question (question : String) : QuestionType :=
  if whatKeywords.any (fun k => strContains question k) then .WHAT
  else if whyKeywords.any (fun k => strContains question k) then .WHY
  else .WHAT

/-! ## Frontend history (src/frontend-repo/src/pages/AnalyticsAssistant.tsx).
`saveHistory` writes its argument to the store unchanged; the submit path
passes `[historyItem, ...history].slice(0, 10)` and the clear path passes
`[]`. -/

structure HistoryItem where
  id : String
  prompt : String
  ts : String
deriving DecidableEq

def saveHistory (items : List HistoryItem) : List HistoryItem := items

def submitHistoryUpdate (item : HistoryItem) (history : List HistoryItem) :
    List HistoryItem :=
  saveHistory ((item :: history).take 10)

def clearHistoryUpdate : List HistoryItem := saveHistory []

/-- `trimmedEmpty s` is true iff `s` is empty or whitespace-only (javascript
`!s.trim()`, the guard used by both the frontend and the orchestrator). -/
def trimmedEmpty (s : String) : Bool := (stripChars s.toList).isEmpty

/-- Submit guard of `handleSubmit` in AnalyticsAssistant.tsx: nothing is sent
when the trimmed input is empty or a request is in flight; otherwise the
trimmed query is sent. -/
def handleSubmitSends (inputValue : String) (isLoading : Bool) : Option String :=
  if trimmedEmpty inputValue || isLoading then none
  else some (String.mk (stripChars inputValue.toList))

/-! ## Significance as read by the frontend.  AnalyticsAssistant.tsx computes
`stats?.p_value < 0.05` in the Stats tab (line 525) and filters
`result.statistical_results?.p_value < 0.05` for the summary (lines 114-117).
A missing `stats` (javascript `undefined < 0.05`) reads as not significant. -/

def isSignificant (p_value : Option ℚ) : Bool :=
  match p_value with
  | some p => decide (p < 0.05)
  | none => false

def significantResultsCount (pvals : List (Option ℚ)) : Nat :=
  (pvals.filter fun p =>
    match p with
    | some v => decide (v < 0.05)
    | none => false).length

/-! ## The wire response as the frontend consumes it.  The branching of
`responseText` in AnalyticsAssistant.tsx (lines 95-125): an error branch when
`response.error` is truthy or `response.success === false`, then branches on
`question_type`, else a fallback. -/

structure WireResponse where
  error : Option String
  success : Option Bool
  question_type : Option String
  message : Option String
  data : Option (List String)
deriving DecidableEq

/-- javascript truthiness of an optional string field. -/
def truthyStr : Option String → Bool
  | none => false
  | some s => !s.isEmpty

inductive ResponseBranch
  | errorBranch
  | whatBranch
  | whyBranch
  | fallbackBranch
deriving DecidableEq

def responseBranchOf (r : WireResponse) : ResponseBranch :=
  if truthyStr r.error || r.success == some false then .errorBranch
  else if r.question_type == some "WHAT" then .whatBranch
  else if r.question_type == some "WHY" then .whyBranch
  else .fallbackBranch

/-- Rendering of the WHY summary card (AnalyticsAssistant.tsx lines 377-393):
`summary.total_hypotheses === 0` selects the failure card, otherwise the
causal summary card. -/
inductive WhySummaryCard
  | failureCard
  | summaryCard
deriving DecidableEq

def whySummaryRender (total_hypotheses : Nat) : WhySummaryCard :=
  if total_hypotheses == 0 then .failureCard else .summaryCard

/-! ## src/frontend-repo/src/lib/api.ts: the shipped `analyze` and its mock. -/

inductive AgentName
  | planner
  | eda
  | stats
  | simulation
  | viz
  | insights
deriving DecidableEq

inductive AgentStatus
  | pending
  | running
  | done
deriving DecidableEq

/-- A javascript scalar value appearing in the mock payload. -/
inductive JsScalar
  | num (q : ℚ)
  | str (s : String)
deriving DecidableEq

structure EdaBlock where
  summary : List (String × JsScalar)
  preview : List (List (String × JsScalar))
deriving DecidableEq

structure StatsBlock where
  test : String
  statistic : ℚ
  p_value : ℚ
  effect_size : Option ℚ
  note : Option String
deriving DecidableEq

structure VizBlock where
  spec : Option (String × List (String × ℚ))
deriving DecidableEq

structure AuditBlock where
  sql : Option String
  steps : Option (List String)
  model : Option String
deriving DecidableEq

structure InsightsBlock where
  text : String
  suggestions : List String
deriving DecidableEq

structure AnalyzeResponse where
  activity : List (AgentName × AgentStatus)
  eda : Option EdaBlock
  stats : Option StatsBlock
  viz : Option VizBlock
  audit : Option AuditBlock
  insights : Option InsightsBlock
deriving DecidableEq

def MOCK_ANALYZE_RESPONSE : AnalyzeResponse :=
  { activity :=
      [(.planner, .done), (.eda, .done), (.stats, .done),
       (.simulation, .pending), (.viz, .pending), (.insights, .pending)]
    eda := some
      { summary :=
          [("total_employees", .num 1470), ("departments", .num 3),
           ("avg_tenure", .num 7.2), ("attrition_rate", .num 0.16)]
        preview :=
          [[("department", .str "Sales"), ("employees", .num 450),
            ("attrition", .str "21%")],
           [("department", .str "Engineering"), ("employees", .num 620),
            ("attrition", .str "12%")],
           [("department", .str "Support"), ("employees", .num 400),
            ("attrition", .str "15%")]] }
    stats := some
      { test := "Chi-square test of independence"
        statistic := 15.23
        p_value := 0.0005
        effect_size := some 0.32
        note := some "Significant association between department and attrition" }
    viz := some
      { spec := some
          ("bar", [("Sales", 0.21), ("Engineering", 0.12), ("Support", 0.15)]) }
    audit := some
      { sql := some "SELECT department, COUNT(*) as employees, AVG(CASE WHEN attrition = 1 THEN 1 ELSE 0 END) as attrition_rate FROM employees GROUP BY department ORDER BY attrition_rate DESC"
        steps := some
          ["Load employee data", "Calculate department-wise metrics",
           "Apply statistical tests", "Generate visualizations"]
        model := none }
    insights := some
      { text := "Sales department shows significantly higher attrition (21%) compared to other departments."
        suggestions :=
          ["How does work-life balance compare across departments?",
           "Is there a correlation between tenure and attrition in Sales?",
           "What are the key factors driving Sales attrition?"] } }

/-- The shipped `analyze` of lib/api.ts: awaits a 2-second timer, then returns
the mock response regardless of the query. -/
def analyze (_query : String) : AnalyzeResponse := MOCK_ANALYZE_RESPONSE

/-! ## src/frontend-repo/src/api/client.js: `sendAnalyticsQuery`.  The fetch
either fails at the network level (the thrown error is re-thrown), or yields a
response; a non-ok response makes the function throw a `Backend error`
exception, an ok response returns the parsed body normally. -/

inductive FetchOutcome
  | networkFailure (msg : String)
  | httpResponse (ok : Bool) (status : Nat) (body : String)
deriving DecidableEq

def sendAnalyticsQuery : FetchOutcome → Except String String
  | .networkFailure msg => .error msg
  | .httpResponse true _ body => .ok body
  | .httpResponse false status body =>
      .error ("Backend error: " ++ toString status ++ " - " ++ body)

/-! ## Modelled from the spec: the AnalysisOrchestrator core (spec section 4).
The backend orchestrator (planner agent service) is not in the repository
snapshot, so the data contract and the routing state machine are modelled from
the specification text; collaborator outcomes are inputs. -/

inductive ErrorKind
  | InvalidInput
  | ClassifierUnavailable
  | QueryGenerationFailed
  | UnsafeQuery
  | QueryExecutionFailed
  | HypothesisGenerationFailed
deriving DecidableEq

structure Hypothesis where
  id : Nat
  null_hypothesis : String
  alternative_hypothesis : String
  variable_a : String
  variable_b : String
  recommended_test : String
deriving DecidableEq

structure StatTestResult where
  hypothesisId : Nat
  test_name : String
  p_value : Option ℚ
  statistic : Option ℚ
  interpretation : String
deriving DecidableEq

structure TabularResult where
  columns : List String
  rows : List (List JsScalar)
  generatingQuery : String
deriving DecidableEq

def TabularResult.rowCount (t : TabularResult) : Nat := t.rows.length

inductive ChartDescriptor
  | chartOk (payload : String)
  | chartFailed (errorMessage : String)
deriving DecidableEq

/-- Modelled from the spec: the single output type of AnalysisOrchestrator, a
tagged union over Descriptive, Causal and Error. -/
inductive ResponseEnvelope
  | descriptive (query : String) (table : TabularResult)
      (chart : Option ChartDescriptor)
  | causal (hypotheses : List Hypothesis) (testResults : List StatTestResult)
  | error (errorKind : ErrorKind) (message : String)
deriving DecidableEq

inductive TestOutcome
  | testOk (p_value statistic : ℚ) (interpretation : String)
  | testFailed (reason : String)

/-- Modelled from the spec: the outcomes of the external collaborators for one
request (classifier, query generation, execution, chart, hypothesis
generation, statistical testing). -/
structure Collaborators where
  classifierOutput : Option String
  generatedQuery : Except String String
  execResult : Except String TabularResult
  chartResult : Except String String
  generatedHypotheses : List Hypothesis
  runTest : Hypothesis → TestOutcome

/-- Modelled from the spec: QuestionClassifier normalization (spec 4.1) - free
text that signals the causal kind maps to WHY, anything else defaults to the
Descriptive kind. -/
def normalizeClassification (text : String) : QuestionType :=
  if strContains (String.mk (upperChars text.toList)) "WHY" ||
     strContains (String.mk (upperChars text.toList)) "CAUSAL" then .WHY
  else .WHAT

/-- Modelled from the spec (4.3 Step C): each hypothesis yields a
StatTestResult carrying its id; a failed test yields a sentinel result with no
p-value, never an omitted entry. -/
def runOneTest (runTest : Hypothesis → TestOutcome) (h : Hypothesis) :
    StatTestResult :=
  match runTest h with
  | .testOk p s interp =>
      { hypothesisId := h.id, test_name := h.recommended_test,
        p_value := some p, statistic := some s, interpretation := interp }
  | .testFailed reason =>
      { hypothesisId := h.id, test_name := h.recommended_test,
        p_value := none, statistic := none, interpretation := reason }

/-- Modelled from the spec (4.2): the descriptive path - query generation,
safety validation, execution, optional chart; every failure becomes the
corresponding Error envelope, a failed chart degrades to a failed
ChartDescriptor inside a successful envelope. -/
def descriptiveHandle (c : Collaborators) (includeVisualization : Bool) :
    ResponseEnvelope :=
  match c.generatedQuery with
  | .error m => .error .QueryGenerationFailed m
  | .ok q =>
    if validate_sql q then
      match c.execResult with
      | .error m => .error .QueryExecutionFailed m
      | .ok table =>
        if includeVisualization then
          match c.chartResult with
          | .ok payload => .descriptive q table (some (.chartOk payload))
          | .error m => .descriptive q table (some (.chartFailed m))
        else .descriptive q table none
    else .error .UnsafeQuery q

/-- Modelled from the spec (4.3): the causal path - zero hypotheses is a
HypothesisGenerationFailed error, otherwise one test result per hypothesis in
order. -/
def causalHandle (c : Collaborators) : ResponseEnvelope :=
  if c.generatedHypotheses.isEmpty then
    .error .HypothesisGenerationFailed "zero hypotheses generated"
  else
    .causal c.generatedHypotheses
      (c.generatedHypotheses.map (runOneTest c.runTest))

/-- Modelled from the spec (4.4): the orchestrator state machine.  The second
component counts invocations of the classifier collaborator. -/
def analyze_spec (question : String) (includeVisualization : Bool)
    (c : Collaborators) : ResponseEnvelope × Nat :=
  if trimmedEmpty question then
    (.error .InvalidInput "empty question", 0)
  else
    match c.classifierOutput with
    | none => (.error .ClassifierUnavailable "classifier unreachable", 1)
    | some text =>
      match normalizeClassification text with
      | .WHAT => (descriptiveHandle c includeVisualization, 1)
      | .WHY => (causalHandle c, 1)

def isErrorEnvelope : ResponseEnvelope → Bool
  | .error _ _ => true
  | _ => false

/-! ## Sample values used by witnesses -/

def sampleTable : TabularResult :=
  { columns := ["department"], rows := [[JsScalar.str "Sales"]],
    generatingQuery := "SELECT department FROM employee_attrition" }

def sampleHypothesis : Hypothesis :=
  { id := 1, null_hypothesis := "department has no effect on attrition",
    alternative_hypothesis := "department affects attrition",
    variable_a := "Department", variable_b := "Attrition",
    recommended_test := "chi-square" }

def sampleCollab : Collaborators :=
  { classifierOutput := some "WHY"
    generatedQuery := Except.ok "SELECT 1"
    execResult := Except.ok sampleTable
    chartResult := Except.ok "chart"
    generatedHypotheses := [sampleHypothesis]
    runTest := fun _ => TestOutcome.testOk 0.01 3.2 "significant" }

def emptyHypCollab : Collaborators :=
  { sampleCollab with generatedHypotheses := [] }

def noClassifierCollab : Collaborators :=
  { sampleCollab with classifierOutput := none }

/-! ## Helper lemmas about whitespace padding for the validator -/

theorem not_space_beq (p : Char) (hp : isSpaceChar p = false) :
    (p == ' ') = false := by
  unfold isSpaceChar at hp
  exact (Bool.or_eq_false_iff.mp
    (Bool.or_eq_false_iff.mp (Bool.or_eq_false_iff.mp hp).1).1).1

theorem dropWhile_space_replicate (m : Nat) (l : List Char) :
    (List.replicate m ' ' ++ l).dropWhile isSpaceChar = l.dropWhile isSpaceChar := by
  induction m with
  | zero => simp
  | succ k ih =>
    simp [List.replicate_succ, List.dropWhile_cons, isSpaceChar, ih]

theorem dropWhile_replicate_space (n : Nat) :
    (List.replicate n ' ').dropWhile isSpaceChar = [] := by
  simpa using dropWhile_space_replicate n ([] : List Char)

theorem stripChars_pad (m n : Nat) (l : List Char) :
    stripChars (List.replicate m ' ' ++ l ++ List.replicate n ' ') = stripChars l := by
  unfold stripChars
  rw [List.append_assoc, dropWhile_space_replicate]
  rcases hdrop : l.dropWhile isSpaceChar with _ | ⟨a, as⟩
  · have h2 : (l ++ List.replicate n ' ').dropWhile isSpaceChar = [] := by
      rw [List.dropWhile_append, hdrop]
      simp [dropWhile_replicate_space, isSpaceChar]
    rw [h2]
  · have h2 : (l ++ List.replicate n ' ').dropWhile isSpaceChar =
        (a :: as) ++ List.replicate n ' ' := by
      rw [List.dropWhile_append, hdrop]
      simp
    rw [h2, List.reverse_append, List.reverse_replicate,
      dropWhile_space_replicate]

theorem isPrefixList_replicate_space (p : Char) (ps : List Char)
    (hp : isSpaceChar p = false) (n : Nat) :
    isPrefixList (p :: ps) (List.replicate n ' ') = false := by
  cases n with
  | zero => rfl
  | succ k => simp [List.replicate_succ, isPrefixList, not_space_beq p hp]

theorem isPrefixList_append_space :
    ∀ (pat l : List Char), pat.all (fun c => !isSpaceChar c) = true → ∀ n : Nat,
      isPrefixList pat (l ++ List.replicate n ' ') = isPrefixList pat l := by
  intro pat
  induction pat with
  | nil => intro l _ n; rfl
  | cons p ps ih =>
    intro l hp n
    rw [List.all_cons, Bool.and_eq_true] at hp
    obtain ⟨hp1, hp2⟩ := hp
    rw [Bool.not_eq_true'] at hp1
    cases l with
    | nil =>
      simp only [List.nil_append]
      rw [isPrefixList_replicate_space p ps hp1 n]
      rfl
    | cons x xs =>
      simp only [List.cons_append, isPrefixList, List.append_eq]
      rw [ih xs hp2 n]

theorem containsSub_replicate_space (p : Char) (ps : List Char)
    (hp : isSpaceChar p = false) (n : Nat) :
    containsSub (p :: ps) (List.replicate n ' ') = false := by
  induction n with
  | zero => rfl
  | succ k ih =>
    have hpre : isPrefixList (p :: ps) (' ' :: List.replicate k ' ') = false := by
      simp [isPrefixList, not_space_beq p hp]
    calc containsSub (p :: ps) (List.replicate (k + 1) ' ')
        = (isPrefixList (p :: ps) (' ' :: List.replicate k ' ') ||
            containsSub (p :: ps) (List.replicate k ' ')) := by
          rw [List.replicate_succ]; rfl
      _ = false := by rw [hpre, ih]; rfl

theorem containsSub_append_space (pat : List Char) (hne : pat ≠ [])
    (hp : pat.all (fun c => !isSpaceChar c) = true) (n : Nat) :
    ∀ l : List Char, containsSub pat (l ++ List.replicate n ' ') = containsSub pat l := by
  obtain ⟨p, ps, rfl⟩ : ∃ p ps, pat = p :: ps := by
    cases pat with
    | nil => exact absurd rfl hne
    | cons a b => exact ⟨a, b, rfl⟩
  have hp' := hp
  rw [List.all_cons, Bool.and_eq_true] at hp'
  have hp1 : isSpaceChar p = false := by
    rw [Bool.not_eq_true'] at hp'
    exact hp'.1
  intro l
  induction l with
  | nil =>
    simp only [List.nil_append]
    rw [containsSub_replicate_space p ps hp1 n]
    rfl
  | cons x xs ih =>
    calc containsSub (p :: ps) ((x :: xs) ++ List.replicate n ' ')
        = (isPrefixList (p :: ps) ((x :: xs) ++ List.replicate n ' ') ||
            containsSub (p :: ps) (xs ++ List.replicate n ' ')) := rfl
      _ = (isPrefixList (p :: ps) (x :: xs) || containsSub (p :: ps) xs) := by
          rw [isPrefixList_append_space (p :: ps) (x :: xs) hp n, ih]
      _ = containsSub (p :: ps) (x :: xs) := rfl

theorem containsSub_space_prepend (pat : List Char) (hne : pat ≠ [])
    (hp : pat.all (fun c => !isSpaceChar c) = true) (m : Nat) (l : List Char) :
    containsSub pat (List.replicate m ' ' ++ l) = containsSub pat l := by
  obtain ⟨p, ps, rfl⟩ : ∃ p ps, pat = p :: ps := by
    cases pat with
    | nil => exact absurd rfl hne
    | cons a b => exact ⟨a, b, rfl⟩
  have hp' := hp
  rw [List.all_cons, Bool.and_eq_true] at hp'
  have hp1 : isSpaceChar p = false := by
    rw [Bool.not_eq_true'] at hp'
    exact hp'.1
  induction m with
  | zero => simp
  | succ k ih =>
    have hpre : isPrefixList (p :: ps) (' ' :: (List.replicate k ' ' ++ l)) = false := by
      simp [isPrefixList, not_space_beq p hp1]
    calc containsSub (p :: ps) (List.replicate (k + 1) ' ' ++ l)
        = (isPrefixList (p :: ps) (' ' :: (List.replicate k ' ' ++ l)) ||
            containsSub (p :: ps) (List.replicate k ' ' ++ l)) := by
          rw [List.replicate_succ]; rfl
      _ = containsSub (p :: ps) l := by rw [hpre, ih]; rfl

theorem any_congrList {α : Type} (l : List α) (f g : α → Bool)
    (h : ∀ a ∈ l, f a = g a) : l.any f = l.any g := by
  induction l with
  | nil => rfl
  | cons x xs ih =>
    simp only [List.any_cons]
    rw [h x (by simp), ih (fun a ha => h a (by simp [ha]))]

theorem dangerousOps_wellformed :
    ∀ op ∈ dangerousOps, op.toList ≠ [] ∧ op.toList.all (fun c => !isSpaceChar c) = true := by
  decide

theorem validateSqlChars_pad (m n : Nat) (l : List Char) :
    validateSqlChars (List.replicate m ' ' ++ l ++ List.replicate n ' ') =
      validateSqlChars l := by
  have hsp : Char.toUpper ' ' = ' ' := by decide
  have hup : upperChars (List.replicate m ' ' ++ l ++ List.replicate n ' ') =
      List.replicate m ' ' ++ upperChars l ++ List.replicate n ' ' := by
    simp [upperChars, List.map_append, List.map_replicate, hsp]
  unfold validateSqlChars
  rw [hup, stripChars_pad]
  have hany : (dangerousOps.any fun op =>
        containsSub op.toList (List.replicate m ' ' ++ upperChars l ++ List.replicate n ' ')) =
      dangerousOps.any fun op => containsSub op.toList (upperChars l) := by
    apply any_congrList
    intro op hop
    obtain ⟨hne, hall⟩ := dangerousOps_wellformed op hop
    rw [containsSub_append_space op.toList hne hall n
        (List.replicate m ' ' ++ upperChars l),
      containsSub_space_prepend op.toList hne hall m (upperChars l)]
  rw [hany]

/-- Claim C3 counterexample: the statement EXPLAIN SELECT 1 contains no
deny-listed keyword, yet the validator rejects it because the stripped
uppercased text does not start with SELECT; so rejection is not equivalent to
deny-keyword occurrence. -/
theorem c3_counterexample :
    denyKeywordOccurs "EXPLAIN SELECT 1" = false ∧
    validate_sql "EXPLAIN SELECT 1" = false := by decide

/-- Claim C3 amended: the validator is a deterministic pure function that
rejects a candidate query iff a deny-listed keyword occurs anywhere in the
uppercased statement or the stripped uppercased statement does not start with
SELECT; the verdict depends only on the case-normalized text, hence it is
invariant under changes of letter case, and it is invariant under surrounding
whitespace padding. -/
theorem c3_amended :
    (∀ q : String, validate_sql q = true ↔
      (isPrefixList "SELECT".toList (stripChars (upperChars q.toList)) = true ∧
        denyKeywordOccurs q = false)) ∧
    (∀ q₁ q₂ : String, upperChars q₁.toList = upperChars q₂.toList →
      validate_sql q₁ = validate_sql q₂) ∧
    (∀ (m n : Nat) (q : String),
      validate_sql
          (String.mk (List.replicate m ' ' ++ q.toList ++ List.replicate n ' ')) =
        validate_sql q) := by
  refine ⟨?_, ?_, ?_⟩
  · intro q
    simp [validate_sql, validateSqlChars, denyKeywordOccurs,
      Bool.and_eq_true, Bool.not_eq_true']
  · intro q₁ q₂ h
    simp only [validate_sql, validateSqlChars, h]
  · intro m n q
    exact validateSqlChars_pad m n q.toList

/-- Claim C3 amended witness: the verdict agrees on a lower-case and an
upper-case spelling of the same query. -/
theorem c3_amended_witness :
    validate_sql "select one from table_a" = validate_sql "SELECT ONE FROM TABLE_A" :=
  c3_amended.2.1 "select one from table_a" "SELECT ONE FROM TABLE_A" (by decide)

/-- Claim C9: the shipped analyze in lib/api.ts is a constant function of its
input - any two query strings produce the identical fixed object
MOCK_ANALYZE_RESPONSE, so the returned value carries no information about the
query. -/
theorem c9_analyze_constant :
    ∀ q1 q2 : String,
      analyze q1 = analyze q2 ∧ analyze q1 = MOCK_ANALYZE_RESPONSE :=
  fun _ _ => ⟨rfl, rfl⟩

/-- Claim C10: a submission stores the new item prepended to the prior list
and truncated to at most 10 items, newest first; the clear operation also
respects the bound, so every history write preserves it. -/
theorem c10_history_bound :
    ∀ (item : HistoryItem) (history : List HistoryItem),
      submitHistoryUpdate item history = item :: history.take 9 ∧
      (submitHistoryUpdate item history).length ≤ 10 ∧
      (submitHistoryUpdate item history).head? = some item ∧
      clearHistoryUpdate.length ≤ 10 := by
  intro item history
  refine ⟨?_, ?_, ?_, by simp [clearHistoryUpdate, saveHistory]⟩
  · simp [submitHistoryUpdate, saveHistory, List.take_succ_cons]
  · simp [submitHistoryUpdate, saveHistory]
  · simp [submitHistoryUpdate, saveHistory, List.take_succ_cons]

/-- Claim C2: the significance flag the frontend computes equals
pValue < 0.05 exactly for every pValue in [0,1]; it is true at 0.049999 and
false at the boundary 0.05; and the summary filter recomputes the same
predicate from p_value at read time. -/
theorem c2_significance :
    (∀ p : ℚ, 0 ≤ p → p ≤ 1 → (isSignificant (some p) = true ↔ p < 0.05)) ∧
    isSignificant (some 0.049999) = true ∧
    isSignificant (some 0.05) = false ∧
    (∀ pvals : List (Option ℚ),
      significantResultsCount pvals =
        (pvals.filter (fun p => isSignificant p)).length) := by
  refine ⟨?_, ?_, ?_, fun pvals => rfl⟩
  · intro p _ _
    simp [isSignificant]
  · simp only [isSignificant, decide_eq_true_eq]
    norm_num
  · simp only [isSignificant, decide_eq_false_iff_not]
    norm_num

/-- Claim C2 witness: the equivalence instantiated at the concrete in-range
p-value 0.01. -/
theorem c2_significance_witness :
    isSignificant (some 0.01) = true ↔ (0.01 : ℚ) < 0.05 :=
  c2_significance.1 0.01 (by norm_num) (by norm_num)

/-- Claim C8: classification always lands on exactly one of the two kinds
(the two kinds being distinct), a question matching neither keyword family
defaults to WHAT (Descriptive), and an ambiguous question matching the what
family - even together with the why family - also resolves to WHAT. -/
theorem c8_default_to_what :
    (∀ q : String, analyze_question q = .WHAT ∨ analyze_question q = .WHY) ∧
    QuestionType.WHAT ≠ QuestionType.WHY ∧
    (∀ q : String,
      whatKeywords.any (fun k => strContains q k) = false →
      whyKeywords.any (fun k => strContains q k) = false →
      analyze_question q = .WHAT) ∧
    (∀ q : String,
      whatKeywords.any (fun k => strContains q k) = true →
      analyze_question q = .WHAT) := by
  refine ⟨?_, by decide, ?_, ?_⟩
  · intro q
    unfold analyze_question
    split
    · exact Or.inl rfl
    split
    · exact Or.inr rfl
    · exact Or.inl rfl
  · intro q h1 h2
    simp [analyze_question, h1, h2]
  · intro q h1
    simp [analyze_question, h1]

/-- Claim C8 witness: a question with no routing keyword resolves to WHAT. -/
theorem c8_default_to_what_witness :
    analyze_question "hello there" = QuestionType.WHAT :=
  c8_default_to_what.2.2.1 "hello there" (by decide) (by decide)

/-- Claim C5: a question that is empty or whitespace-only (empty after
trimming) yields the InvalidInput error envelope with zero classifier
invocations, and the frontend submit handler sends nothing for such input. -/
theorem c5_invalid_input_short_circuit :
    ∀ q : String, trimmedEmpty q = true →
      (∀ (viz : Bool) (c : Collaborators),
        (analyze_spec q viz c).1 = .error .InvalidInput "empty question" ∧
        (analyze_spec q viz c).2 = 0) ∧
      (∀ isLoading : Bool, handleSubmitSends q isLoading = none) := by
  intro q hq
  constructor
  · intro viz c
    constructor <;> simp [analyze_spec, hq]
  · intro isLoading
    simp [handleSubmitSends, hq]

/-- Claim C5 witness: a whitespace-only question produces the InvalidInput
envelope with the classifier never called. -/
theorem c5_invalid_input_short_circuit_witness :
    (analyze_spec "   " true sampleCollab).1 =
        .error .InvalidInput "empty question" ∧
      (analyze_spec "   " true sampleCollab).2 = 0 :=
  (c5_invalid_input_short_circuit "   " (by decide)).1 true sampleCollab

/-- Claim C6: on the causal path, zero generated hypotheses produce the
HypothesisGenerationFailed error envelope and never a Causal success with
empty arrays; the frontend renders the failure card for a zero-hypothesis
summary. -/
theorem c6_zero_hypotheses_error :
    (∀ (q t : String) (viz : Bool) (c : Collaborators),
      trimmedEmpty q = false →
      c.classifierOutput = some t →
      normalizeClassification t = .WHY →
      c.generatedHypotheses = [] →
      (analyze_spec q viz c).1 =
          .error .HypothesisGenerationFailed "zero hypotheses generated" ∧
        ∀ hs ts, (analyze_spec q viz c).1 ≠ .causal hs ts) ∧
    whySummaryRender 0 = .failureCard := by
  constructor
  · intro q t viz c hq hc hn hh
    have henv : (analyze_spec q viz c).1 =
        .error .HypothesisGenerationFailed "zero hypotheses generated" := by
      simp [analyze_spec, hq, hc, hn, causalHandle, hh]
    exact ⟨henv, fun hs ts => by simp [henv]⟩
  · rfl

/-- Claim C6 witness: a concrete causal request whose hypothesis collaborator
returns the empty list ends in the HypothesisGenerationFailed envelope. -/
theorem c6_zero_hypotheses_error_witness :
    (analyze_spec "why do employees leave" true emptyHypCollab).1 =
      ResponseEnvelope.error .HypothesisGenerationFailed
        "zero hypotheses generated" :=
  (c6_zero_hypotheses_error.1 "why do employees leave" "WHY" true emptyHypCollab
    (by decide) rfl (by decide) rfl).1

/-! ## Inversion helpers for the orchestrator -/

theorem runOneTest_hypothesisId (f : Hypothesis → TestOutcome) (h : Hypothesis) :
    (runOneTest f h).hypothesisId = h.id := by
  unfold runOneTest
  cases f h <;> rfl

theorem descriptiveHandle_not_causal (c : Collaborators) (viz : Bool)
    (hs : List Hypothesis) (ts : List StatTestResult) :
    descriptiveHandle c viz ≠ ResponseEnvelope.causal hs ts := by
  unfold descriptiveHandle
  split
  · simp
  · split
    · split
      · simp
      · split
        · split <;> simp
        · simp
    · simp

theorem causalHandle_causal_inv (c : Collaborators)
    (hs : List Hypothesis) (ts : List StatTestResult) :
    causalHandle c = .causal hs ts →
    hs = c.generatedHypotheses ∧
      ts = c.generatedHypotheses.map (runOneTest c.runTest) := by
  unfold causalHandle
  split
  · intro h
    simp at h
  · intro h
    injection h with h1 h2
    exact ⟨h1.symm, h2.symm⟩

theorem analyze_spec_causal_inv (q : String) (viz : Bool) (c : Collaborators)
    (hs : List Hypothesis) (ts : List StatTestResult) :
    (analyze_spec q viz c).1 = .causal hs ts →
    hs = c.generatedHypotheses ∧
      ts = c.generatedHypotheses.map (runOneTest c.runTest) := by
  unfold analyze_spec
  intro heq
  split at heq
  · simp at heq
  · split at heq
    · simp at heq
    · split at heq
      · exact absurd heq (descriptiveHandle_not_causal c viz hs ts)
      · exact causalHandle_causal_inv c hs ts heq

/-- Claim C4: every Causal success envelope pairs hypotheses and testResults
positionally - both sequences are exactly the N generated hypotheses and their
test results, the lengths agree, and testResults[i].hypothesisId equals
hypotheses[i].id for every i. -/
theorem c4_positional_correspondence :
    ∀ (q : String) (viz : Bool) (c : Collaborators)
      (hs : List Hypothesis) (ts : List StatTestResult),
      (analyze_spec q viz c).1 = .causal hs ts →
      hs.length = ts.length ∧
      hs = c.generatedHypotheses ∧
      ∀ (i : Nat) (h1 : i < hs.length) (h2 : i < ts.length),
        (ts.get ⟨i, h2⟩).hypothesisId = (hs.get ⟨i, h1⟩).id := by
  intro q viz c hs ts heq
  obtain ⟨hh, ht⟩ := analyze_spec_causal_inv q viz c hs ts heq
  subst hh
  subst ht
  refine ⟨by simp, rfl, ?_⟩
  intro i h1 h2
  simp [List.get_eq_getElem, List.getElem_map, runOneTest_hypothesisId]

/-- Claim C4 witness: a one-hypothesis causal run yields matching lengths. -/
theorem c4_positional_correspondence_witness :
    [sampleHypothesis].length =
      [runOneTest sampleCollab.runTest sampleHypothesis].length :=
  (c4_positional_correspondence "why is attrition high" true sampleCollab
    [sampleHypothesis] [runOneTest sampleCollab.runTest sampleHypothesis]
    rfl).1

/-- Claim C1: the orchestrator never throws - each failure path (invalid
input, classifier unreachable, query generation failure, unsafe query,
execution failure, zero hypotheses) terminates in an Error-variant envelope
returned normally; and on the client side an in-contract (ok) response is
returned normally by sendAnalyticsQuery, which throws only on transport
failures. -/
theorem c1_never_throws :
    (∀ (status : Nat) (body : String),
      sendAnalyticsQuery (.httpResponse true status body) = Except.ok body) ∧
    (∀ (o : FetchOutcome) (e : String), sendAnalyticsQuery o = Except.error e →
      ∀ (status : Nat) (body : String), o ≠ .httpResponse true status body) ∧
    (∀ (q : String) (viz : Bool) (c : Collaborators),
      trimmedEmpty q = true →
      isErrorEnvelope (analyze_spec q viz c).1 = true) ∧
    (∀ (q : String) (viz : Bool) (c : Collaborators),
      c.classifierOutput = none →
      isErrorEnvelope (analyze_spec q viz c).1 = true) ∧
    (∀ (q t m : String) (viz : Bool) (c : Collaborators),
      c.classifierOutput = some t → normalizeClassification t = .WHAT →
      c.generatedQuery = Except.error m →
      isErrorEnvelope (analyze_spec q viz c).1 = true) ∧
    (∀ (q t qq : String) (viz : Bool) (c : Collaborators),
      c.classifierOutput = some t → normalizeClassification t = .WHAT →
      c.generatedQuery = Except.ok qq → validate_sql qq = false →
      isErrorEnvelope (analyze_spec q viz c).1 = true) ∧
    (∀ (q t qq m : String) (viz : Bool) (c : Collaborators),
      c.classifierOutput = some t → normalizeClassification t = .WHAT →
      c.generatedQuery = Except.ok qq → validate_sql qq = true →
      c.execResult = Except.error m →
      isErrorEnvelope (analyze_spec q viz c).1 = true) ∧
    (∀ (q t : String) (viz : Bool) (c : Collaborators),
      c.classifierOutput = some t → normalizeClassification t = .WHY →
      c.generatedHypotheses = [] →
      isErrorEnvelope (analyze_spec q viz c).1 = true) := by
  refine ⟨?_, ?_, ?_, ?_, ?_, ?_, ?_, ?_⟩
  · intro status body
    rfl
  · intro o e h status body hcontra
    subst hcontra
    simp [sendAnalyticsQuery] at h
  · intro q viz c hq
    simp [analyze_spec, hq, isErrorEnvelope]
  · intro q viz c hc
    cases hq : trimmedEmpty q
    · simp [analyze_spec, hq, hc, isErrorEnvelope]
    · simp [analyze_spec, hq, isErrorEnvelope]
  · intro q t m viz c hc hn hgen
    cases hq : trimmedEmpty q
    · simp [analyze_spec, hq, hc, hn, descriptiveHandle, hgen, isErrorEnvelope]
    · simp [analyze_spec, hq, isErrorEnvelope]
  · intro q t qq viz c hc hn hgen hval
    cases hq : trimmedEmpty q
    · simp [analyze_spec, hq, hc, hn, descriptiveHandle, hgen, hval,
        isErrorEnvelope]
    · simp [analyze_spec, hq, isErrorEnvelope]
  · intro q t qq m viz c hc hn hgen hval hexec
    cases hq : trimmedEmpty q
    · simp [analyze_spec, hq, hc, hn, descriptiveHandle, hgen, hval, hexec,
        isErrorEnvelope]
    · simp [analyze_spec, hq, isErrorEnvelope]
  · intro q t viz c hc hn hh
    cases hq : trimmedEmpty q
    · simp [analyze_spec, hq, hc, hn, causalHandle, hh, isErrorEnvelope]
    · simp [analyze_spec, hq, isErrorEnvelope]

/-- Claim C1 witness: an unreachable classifier ends in an Error envelope
returned normally. -/
theorem c1_never_throws_witness :
    isErrorEnvelope
        (analyze_spec "what is the attrition rate" true noClassifierCollab).1 =
      true :=
  c1_never_throws.2.2.2.1 "what is the attrition rate" true noClassifierCollab
    rfl

/-! ## Concrete wire responses exhibiting the envelope shape of the demo -/

def wireBoth : WireResponse :=
  { error := some "boom", success := some true, question_type := some "WHAT",
    message := none, data := some ["row1"] }

def wireWhatOk : WireResponse :=
  { error := none, success := some true, question_type := some "WHAT",
    message := none, data := some ["row1"] }

def wireErrBySuccess : WireResponse :=
  { error := none, success := some false, question_type := none,
    message := none, data := none }

def wireErrByError : WireResponse :=
  { error := some "boom", success := none, question_type := none,
    message := none, data := none }

def wireWhatNoSuccess : WireResponse :=
  { error := none, success := none, question_type := some "WHAT",
    message := none, data := none }

/-- Claim C7 counterexample: the demo envelope is not a tagged union with a
single discriminant.  A single response can populate the error field and a
data payload at once; and each field the consumer inspects (error, success,
question_type) fails on its own to determine the branch taken - for each of
them two responses agree on that field yet are handled as different
variants. -/
theorem c7_counterexample :
    (wireBoth.error ≠ none ∧ wireBoth.data ≠ none ∧
      wireBoth.question_type = some "WHAT" ∧
      responseBranchOf wireBoth = .errorBranch) ∧
    (wireBoth.question_type = wireWhatOk.question_type ∧
      responseBranchOf wireBoth ≠ responseBranchOf wireWhatOk) ∧
    (wireErrBySuccess.error = wireWhatNoSuccess.error ∧
      responseBranchOf wireErrBySuccess ≠ responseBranchOf wireWhatNoSuccess) ∧
    (wireErrByError.success = wireWhatNoSuccess.success ∧
      responseBranchOf wireErrByError ≠ responseBranchOf wireWhatNoSuccess) := by
  decide

/-- Claim C7 amended: the demo wire envelope is a record of optional fields,
more than one of which may be populated; the consumer determines the handling
branch not from a single discriminant but by a fixed precedence over several
fields: a truthy error or success equal to false selects the error branch,
otherwise question_type WHAT then WHY, otherwise a fallback; exactly one
branch is selected for every response. -/
theorem c7_amended :
    ∀ r : WireResponse,
      (responseBranchOf r = .errorBranch ↔
        (truthyStr r.error = true ∨ r.success = some false)) ∧
      (responseBranchOf r = .whatBranch ↔
        (truthyStr r.error = false ∧ r.success ≠ some false ∧
          r.question_type = some "WHAT")) ∧
      (responseBranchOf r = .whyBranch ↔
        (truthyStr r.error = false ∧ r.success ≠ some false ∧
          r.question_type ≠ some "WHAT" ∧ r.question_type = some "WHY")) ∧
      (responseBranchOf r = .fallbackBranch ↔
        (truthyStr r.error = false ∧ r.success ≠ some false ∧
          r.question_type ≠ some "WHAT" ∧ r.question_type ≠ some "WHY")) := by
  intro r
  cases hE : truthyStr r.error <;>
    cases hS : r.success == some false <;>
      cases hQ1 : r.question_type == some "WHAT" <;>
        cases hQ2 : r.question_type == some "WHY" <;>
          simp_all [responseBranchOf, beq_iff_eq, beq_eq_false_iff_ne]
